import Mathlib

/-!
Shallow embedding of the `homebots/dockerfiles` deployment orchestrator
(`src/server/services.js`, `src/server/storage.js`, `src/server/docker.js`),
with the claims about it settled as theorems.

External collaborators (Node's `crypto` SHA-256, the container engine, the
reverse proxy, the source host) are embedded as follows: SHA-256 is
implemented in full (FIPS 180-4) over `Nat` words reduced mod 2^32, since the
service identity is defined directly in terms of it; the engine/proxy/source
calls are modelled as explicit inputs (running-container lists, per-step
outcomes) and emitted action traces, since the orchestrator only sequences
them. JavaScript truthiness, object spread, and the in-place mutation of
stored service objects by `getAllServices` are modelled explicitly where the
source relies on them.
-/

namespace Cloudy

/-! ## SHA-256 (the `sha256` helper of services.js: Node crypto, hex digest) -/

/-- Reduce to a 32-bit word. -/
def w32 (n : Nat) : Nat := n % 4294967296

/-- Right rotation of a 32-bit word. -/
def rotr32 (x n : Nat) : Nat := w32 ((x >>> n) ||| (x <<< (32 - n)))

def bigSigma0 (x : Nat) : Nat := (rotr32 x 2) ^^^ (rotr32 x 13) ^^^ (rotr32 x 22)

def bigSigma1 (x : Nat) : Nat := (rotr32 x 6) ^^^ (rotr32 x 11) ^^^ (rotr32 x 25)

def smallSigma0 (x : Nat) : Nat := (rotr32 x 7) ^^^ (rotr32 x 18) ^^^ (x >>> 3)

def smallSigma1 (x : Nat) : Nat := (rotr32 x 17) ^^^ (rotr32 x 19) ^^^ (x >>> 10)

def chFn (e f g : Nat) : Nat := (e &&& f) ^^^ ((e ^^^ 4294967295) &&& g)

def majFn (a b c : Nat) : Nat := (a &&& b) ^^^ (a &&& c) ^^^ (b &&& c)

/-- The eight working variables of the SHA-256 compression function. -/
structure Hash8 where
  a : Nat
  b : Nat
  c : Nat
  d : Nat
  e : Nat
  f : Nat
  g : Nat
  h : Nat
deriving DecidableEq, Repr

/-- The eight initial hash words of FIPS 180-4 section 5.3.3, in decimal. -/
def initHash : Hash8 :=
  ⟨1779033703, 3144134277, 1013904242, 2773480762,
   1359893119, 2600822924, 528734635, 1541459225⟩

/-- The 64 round constants of FIPS 180-4 section 4.2.2, in decimal. -/
def sha256K : List Nat :=
  [1116352408, 1899447441, 3049323471, 3921009573, 961987163, 1508970993,
   2453635748, 2870763221, 3624381080, 310598401, 607225278, 1426881987,
   1925078388, 2162078206, 2614888103, 3248222580, 3835390401, 4022224774,
   264347078, 604807628, 770255983, 1249150122, 1555081692, 1996064986,
   2554220882, 2821834349, 2952996808, 3210313671, 3336571891, 3584528711,
   113926993, 338241895, 666307205, 773529912, 1294757372, 1396182291,
   1695183700, 1986661051, 2177026350, 2456956037, 2730485921, 2820302411,
   3259730800, 3345764771, 3516065817, 3600352804, 4094571909, 275423344,
   430227734, 506948616, 659060556, 883997877, 958139571, 1322822218,
   1537002063, 1747873779, 1955562222, 2024104815, 2227730452, 2361852424,
   2428436474, 2756734187, 3204031479, 3329325298]

/-- One round of the compression function. -/
def shaRound (st : Hash8) (k w : Nat) : Hash8 :=
  let t1 := w32 (st.h + bigSigma1 st.e + chFn st.e st.f st.g + k + w)
  let t2 := w32 (bigSigma0 st.a + majFn st.a st.b st.c)
  ⟨w32 (t1 + t2), st.a, st.b, st.c, w32 (st.d + t1), st.e, st.f, st.g⟩

/-- One step of the message-schedule extension; `ws` holds the words produced
so far, latest first. -/
def scheduleStep (ws : List Nat) : List Nat :=
  let g := fun k => ws.getD (k - 1) 0
  w32 (g 16 + smallSigma1 (g 2) + g 7 + smallSigma0 (g 15)) :: ws

/-- Extend a 16-word block to the 64-word message schedule. -/
def schedule (block : List Nat) : List Nat :=
  ((List.range 48).foldl (fun ws _ => scheduleStep ws) block.reverse).reverse

/-- Compress one 16-word block into the running hash. -/
def processBlock (st : Hash8) (block : List Nat) : Hash8 :=
  let f := (sha256K.zip (schedule block)).foldl (fun s kw => shaRound s kw.1 kw.2) st
  ⟨w32 (st.a + f.a), w32 (st.b + f.b), w32 (st.c + f.c), w32 (st.d + f.d),
   w32 (st.e + f.e), w32 (st.f + f.f), w32 (st.g + f.g), w32 (st.h + f.h)⟩

/-- Big-endian 4-byte grouping of the padded byte stream into 32-bit words. -/
def bytesToWords : List Nat → List Nat
  | b0 :: b1 :: b2 :: b3 :: rest =>
      (b0 * 16777216 + b1 * 65536 + b2 * 256 + b3) :: bytesToWords rest
  | _ => []

/-- Split a word stream into 16-word blocks (structural recursion so that the
kernel can evaluate digests; padded input is always a multiple of 16 words). -/
def chunk16 : List Nat → List (List Nat)
  | [] => []
  | w0 :: w1 :: w2 :: w3 :: w4 :: w5 :: w6 :: w7 ::
    w8 :: w9 :: w10 :: w11 :: w12 :: w13 :: w14 :: w15 :: rest =>
      [w0, w1, w2, w3, w4, w5, w6, w7, w8, w9, w10, w11, w12, w13, w14, w15] :: chunk16 rest
  | short => [short]

/-- The 8-byte big-endian encoding of the message bit length. -/
def lengthBytes (n : Nat) : List Nat :=
  [(n >>> 56) % 256, (n >>> 48) % 256, (n >>> 40) % 256, (n >>> 32) % 256,
   (n >>> 24) % 256, (n >>> 16) % 256, (n >>> 8) % 256, n % 256]

/-- FIPS 180-4 padding: a 0x80 byte, zeros to 56 mod 64, then the bit length. -/
def padBytes (msg : List Nat) : List Nat :=
  let L := msg.length
  let zeros := (120 - (L + 1) % 64) % 64
  msg ++ 128 :: (List.replicate zeros 0 ++ lengthBytes (L * 8))

/-- UTF-8 encoding of one character. -/
def utf8Char (c : Char) : List Nat :=
  let n := c.toNat
  if n < 128 then [n]
  else if n < 2048 then [192 + n / 64, 128 + n % 64]
  else if n < 65536 then [224 + n / 4096, 128 + (n / 64) % 64, 128 + n % 64]
  else [240 + n / 262144, 128 + (n / 4096) % 64, 128 + (n / 64) % 64, 128 + n % 64]

/-- UTF-8 encoding of a string, as Node's `hash.update(string)` performs it. -/
def utf8Bytes (s : String) : List Nat :=
  s.data.foldr (fun c acc => utf8Char c ++ acc) []

/-- SHA-256 digest of a byte stream, as eight 32-bit words. -/
def sha256Words (msg : List Nat) : Hash8 :=
  (chunk16 (bytesToWords (padBytes msg))).foldl processBlock initHash

/-- Lowercase hex digit. -/
def hexChar (n : Nat) : Char :=
  if n < 10 then Char.ofNat (48 + n) else Char.ofNat (87 + n)

/-- Eight lowercase hex digits of a 32-bit word, most significant first. -/
def wordHex (w : Nat) : List Char :=
  [hexChar ((w >>> 28) % 16), hexChar ((w >>> 24) % 16), hexChar ((w >>> 20) % 16),
   hexChar ((w >>> 16) % 16), hexChar ((w >>> 12) % 16), hexChar ((w >>> 8) % 16),
   hexChar ((w >>> 4) % 16), hexChar (w % 16)]

/-- The services.js helper `sha256`: lowercase hex SHA-256 of the UTF-8 bytes
of a string (`createHash('sha256').update(value).digest('hex')`). -/
def sha256Hex (s : String) : String :=
  let d := sha256Words (utf8Bytes s)
  String.mk (wordHex d.a ++ wordHex d.b ++ wordHex d.c ++ wordHex d.d ++
             wordHex d.e ++ wordHex d.f ++ wordHex d.g ++ wordHex d.h)

/-- `getServiceId(repository, head)` from services.js: `sha256(repository + head)`. -/
def getServiceId (repository head : String) : String :=
  sha256Hex (repository ++ head)

/-! ## JSON values and FileStorage (storage.js)

JavaScript objects are modelled as insertion-ordered association lists;
`data[name] = value` replaces in place or appends, `delete data[name]`
removes the key. Numbers are modelled as integers (the repository only
stores strings, hashes, ports and nested objects of those). -/

inductive Json where
  | null
  | bool (b : Bool)
  | num (n : Int)
  | str (s : String)
  | arr (elems : List Json)
  | obj (fields : List (String × Json))

/-- JavaScript truthiness of a JSON value: null, false, 0 and "" are falsy;
arrays and objects are always truthy. -/
def Json.truthy : Json → Bool
  | .null => false
  | .bool b => b
  | .num n => n != 0
  | .str s => s != ""
  | .arr _ => true
  | .obj _ => true

/-- Read a property of a JS object (association list). -/
def lookupKey (data : List (String × α)) (k : String) : Option α :=
  (data.find? (fun p => p.1 == k)).map (fun p => p.2)

/-- `data[k] = v` on a JS object: replace the value of an existing key in
place, else append the new key at the end. -/
def setKey : List (String × α) → String → α → List (String × α)
  | [], k, v => [(k, v)]
  | p :: rest, k, v => if p.1 == k then (k, v) :: rest else p :: setKey rest k v

/-- `delete data[k]` on a JS object. -/
def delKey (data : List (String × α)) (k : String) : List (String × α) :=
  data.filter (fun p => p.1 != k)

/-- FileStorage (storage.js): one JSON snapshot per collection. The file write
performed by `save` is fire-and-forget and not part of the observable
get/set/has/delete semantics modelled here. -/
structure FileStorage where
  data : List (String × Json)

namespace FileStorage

/-- storage.js `set`: `this.data[name] = value`. -/
def set (st : FileStorage) (name : String) (value : Json) : FileStorage :=
  ⟨setKey st.data name value⟩

/-- storage.js `get`: `this.data[name] || defaultValue` — an absent key reads
`undefined` (falsy), and a falsy stored value is also replaced by the
default. -/
def get (st : FileStorage) (name : String) (defaultValue : Json) : Json :=
  match lookupKey st.data name with
  | some v => if v.truthy then v else defaultValue
  | none => defaultValue

/-- storage.js `has`: `name in this.data`. -/
def hasKey (st : FileStorage) (name : String) : Bool :=
  (lookupKey st.data name).isSome

/-- storage.js `delete`: `delete this.data[name]`. -/
def delete (st : FileStorage) (name : String) : FileStorage :=
  ⟨delKey st.data name⟩

/-- storage.js `getAll`: `Object.values(this.data)`. -/
def getAllValues (st : FileStorage) : List Json :=
  st.data.map (fun p => p.2)

end FileStorage

/-! ## Service data model (services.js)

The services collection always holds ServiceConfiguration objects, so it is
embedded as a typed association list from id to `ServiceConfig` (a stored
object is always truthy, so the `!serviceConfiguration` check of the source
is exactly `Option.isNone` of the lookup). -/

structure WebSocketInfo where
  path : String
deriving DecidableEq

/-- An environment-variable value: caller-supplied strings, or the numeric
ports injected by createServiceConfiguration. -/
inductive EnvValue where
  | str (s : String)
  | num (n : Nat)
deriving DecidableEq

/-- The caller-supplied service descriptor, after webhook/CLI parsing and
before merging with the repository-declared configuration. Absent JS
properties are `none`; note a present-but-empty string is distinct from an
absent property and both are falsy. -/
structure ServiceInput where
  repository : String
  head : String
  type : Option String
  domain : Option String
  webSocket : Option WebSocketInfo
  env : List (String × EnvValue)
  url : Option String
  cloneUrl : Option String
deriving DecidableEq

/-- The durable ServiceConfiguration record returned by
createServiceConfiguration. `online` and `imageId` are absent on a fresh
record; absent JS properties read as falsy, modelled as `false` / `none`. -/
structure ServiceConfig where
  id : String
  type : String
  url : Option String
  cloneUrl : Option String
  branch : String
  repository : String
  webSocket : Option WebSocketInfo
  domains : List String
  ports : List Nat
  env : List (String × EnvValue)
  online : Bool
  imageId : Option String
deriving DecidableEq

/-- docker.js: `this.defaultServiceType = 'node'`. -/
def dockerDefaultServiceType : String := "node"

/-- getServiceType: `service.type && Docker.availableServiceTypes.includes(service.type)
? service.type : Docker.defaultServiceType`. `availableServiceTypes` is the
images directory listing and `defaultServiceType` is `'node'`; both are fields
of the Docker singleton and appear here as parameters. An absent or empty
declared type is falsy and falls through to the default. -/
def getServiceType (availableServiceTypes : List String) (defaultServiceType : String)
    (service : ServiceInput) : String :=
  match service.type with
  | some t => if t != "" && availableServiceTypes.contains t then t else defaultServiceType
  | none => defaultServiceType

/-- The `portsInUse` accumulation of getRandomPort:
`getAllServices().reduce((ports, service) => ports.concat(service.ports), [])`.
(`getAllServices` also refreshes online flags on the stored objects, which
does not change any `ports` field.) -/
def portsInUse (knownServices : List ServiceConfig) : List Nat :=
  knownServices.foldl (fun ps s => ps ++ s.ports) []

/-- The loop of getRandomPort. The successive values of
`3000 + Math.round(Math.random() * 60000)` are supplied as the `candidates`
stream; the loop returns the first candidate not contained in `used`,
together with the unconsumed remainder of the stream. An exhausted stream
models the JS loop spinning forever without finding a free port. -/
def drawPort : List Nat → List Nat → Option (Nat × List Nat)
  | [], _ => none
  | c :: cs, used => if used.contains c then drawPort cs used else some (c, cs)

/-- Keep a JS string value only when it is truthy, as `filter(Boolean)` does
over `[service.domain, derivedSubdomain]`. -/
def optTruthy : Option String → Option String
  | some s => if s = "" then none else some s
  | none => none

/-- createServiceConfiguration (services.js lines 77-107). `cloudyDomain` is
the CLOUDY_DOMAIN environment value ('local' by default); `knownServices` is
the stored services collection that each getRandomPort call reads through
getAllServices. Both getRandomPort calls read the same stored collection —
the service under construction is not yet stored, so its own http port is
not part of `used` when the websocket port is drawn. Returns none when the
candidate stream runs out (the JS port loop would never return). -/
def createServiceConfiguration (cloudyDomain : String) (availableServiceTypes : List String)
    (defaultServiceType : String) (knownServices : List ServiceConfig)
    (service : ServiceInput) (candidates : List Nat) : Option (ServiceConfig × List Nat) :=
  let serviceId := getServiceId service.repository service.head
  let serviceType := getServiceType availableServiceTypes defaultServiceType service
  let used := portsInUse knownServices
  match drawPort candidates used with
  | none => none
  | some (httpPort, candidates1) =>
    let domains := [service.domain, some (serviceId.take 7 ++ "." ++ cloudyDomain)].filterMap optTruthy
    let hasWebSocket := match service.webSocket with
      | some ws => ws.path != ""
      | none => false
    let webSocket : Option WebSocketInfo := match service.webSocket with
      | some ws => if ws.path != "" then some ⟨ws.path⟩ else none
      | none => none
    let baseEnv := setKey service.env "PORT" (EnvValue.num httpPort)
    if hasWebSocket then
      match drawPort candidates1 used with
      | none => none
      | some (wsPort, candidates2) =>
        some ({ id := serviceId, type := serviceType, url := service.url,
                cloneUrl := service.cloneUrl, branch := service.head,
                repository := service.repository, webSocket := webSocket,
                domains := domains, ports := [httpPort, wsPort],
                env := setKey baseEnv "WEBSOCKET_PORT" (EnvValue.num wsPort),
                online := false, imageId := none }, candidates2)
    else
      some ({ id := serviceId, type := serviceType, url := service.url,
              cloneUrl := service.cloneUrl, branch := service.head,
              repository := service.repository, webSocket := webSocket,
              domains := domains, ports := [httpPort],
              env := baseEnv,
              online := false, imageId := none }, candidates1)

/-- getAllServices (services.js lines 19-29). The stored services and the
engine's running-container list are merged: `status[name].online = true` is
an in-place mutation of the stored objects (getAll returns live references),
so the updated store is part of the outcome; a service whose id is not in
the running list keeps whatever `online` value it already had from earlier
calls — nothing ever resets the flag to false. -/
def getAllServices (store : List (String × ServiceConfig)) (runningServices : List String) :
    List (String × ServiceConfig) × List ServiceConfig :=
  let store1 := store.map (fun p =>
    if runningServices.contains p.2.id then (p.1, { p.2 with online := true }) else p)
  (store1, store1.map (fun p => p.2))

/-! ## Rebuild and deploy pipelines

The container engine, reverse proxy and source host are external
collaborators: each of the five pipeline steps (docker build, docker stop,
docker run, nginx config write, nginx reload) either succeeds or throws, and
those outcomes are supplied as inputs. The steps actually attempted are
recorded as an action trace. -/

/-- Outcome of one external pipeline step: it returns, or throws a message. -/
inductive StepResult where
  | ok
  | fail (message : String)
deriving DecidableEq

/-- An externally visible action of the orchestrator. -/
inductive DockerAction where
  | createImage (id : String)
  | stopService (id : String)
  | runService (id : String)
  | configureNginx (id : String)
  | reloadNginx
  | storeService (id : String)
deriving DecidableEq

/-- The outcomes the five external steps of rebuildService would have, were
they attempted. -/
structure StepOutcomes where
  createImage : StepResult
  stopService : StepResult
  runService : StepResult
  configureNginx : StepResult
  reloadNginx : StepResult
deriving DecidableEq

/-- The rebuildService step sequence, in source order, for a given service. -/
def stepList (id : String) (steps : StepOutcomes) : List (DockerAction × StepResult) :=
  [(.createImage id, steps.createImage), (.stopService id, steps.stopService),
   (.runService id, steps.runService), (.configureNginx id, steps.configureNginx),
   (.reloadNginx, steps.reloadNginx)]

/-- Run steps in order until the first failure; the trace holds the attempted
steps (the failing step included), and the result is the first thrown error
or success. -/
def runSteps : List (DockerAction × StepResult) → List DockerAction × StepResult
  | [] => ([], .ok)
  | (a, .fail e) :: _ => ([a], .fail e)
  | (a, .ok) :: rest =>
    let r := runSteps rest
    (a :: r.1, r.2)

/-- Outcome of rebuildService: the final in-progress flag, the thrown error
or success, and the steps attempted. -/
structure RebuildOutcome where
  building : Bool
  result : StepResult
  trace : List DockerAction
deriving DecidableEq

/-- rebuildService (services.js lines 63-75): set `this.building = true`,
then image build → stop → run → nginx configure → nginx reload; on a step's
failure set `this.building = false` and rethrow. After a fully successful
run the flag is left true, and the incoming flag value is never consulted. -/
def rebuildService (steps : StepOutcomes) (cfg : ServiceConfig) (buildingIn : Bool) :
    RebuildOutcome :=
  let r := runSteps (stepList cfg.id steps)
  { building := match r.2 with | .ok => true | .fail _ => false
    result := r.2
    trace := r.1 }

/-- Outcome of rebuildRepository. -/
structure RebuildRepoOutcome where
  result : StepResult
  trace : List DockerAction
  building : Bool
deriving DecidableEq

/-- rebuildRepository (services.js lines 52-61): look up the stored
configuration under `getServiceId(repository, head)`; a stored configuration
object is always truthy, so the `!serviceConfiguration` guard is exactly a
failed lookup, and it throws the not-found error without attempting any
pipeline step. -/
def rebuildRepository (store : List (String × ServiceConfig)) (steps : StepOutcomes)
    (buildingIn : Bool) (repository head : String) : RebuildRepoOutcome :=
  let serviceId := getServiceId repository head
  match lookupKey store serviceId with
  | none =>
    { result := .fail ("Service configuration for " ++ repository ++ ":" ++ head ++ " not found!")
      trace := []
      building := buildingIn }
  | some cfg =>
    let r := rebuildService steps cfg buildingIn
    { result := r.result, trace := r.trace, building := r.building }

/-- The repository-declared configuration returned by
`Github.fetchServiceConfiguration`: a partial object whose present fields
(`some`) overwrite the caller-supplied descriptor in the spread
`{...service, ...configuration}`. -/
structure FetchedConfig where
  repository : Option String
  head : Option String
  type : Option String
  domain : Option String
  webSocket : Option WebSocketInfo
  env : Option (List (String × EnvValue))
  url : Option String
  cloneUrl : Option String
deriving DecidableEq

/-- The object spread `{...service, ...configuration}`: fields present in the
fetched configuration win. -/
def mergeConfiguration (service : ServiceInput) (configuration : FetchedConfig) : ServiceInput :=
  { repository := configuration.repository.getD service.repository
    head := configuration.head.getD service.head
    type := (configuration.type.map some).getD service.type
    domain := (configuration.domain.map some).getD service.domain
    webSocket := (configuration.webSocket.map some).getD service.webSocket
    env := configuration.env.getD service.env
    url := (configuration.url.map some).getD service.url
    cloneUrl := (configuration.cloneUrl.map some).getD service.cloneUrl }

/-- What deployService's caller observes: the JS call either never settles
(the port loop spins), rejects with an error, or resolves with the service
identity. -/
inductive DeployResult where
  | diverged
  | raised (message : String)
  | returnedId (id : String)
deriving DecidableEq

/-- Outcome of deployService together with its deferred phase: the value
settled to the caller, the services store after the deferred `set`, the
actions attempted, and the build flag. -/
structure DeployOutcome where
  result : DeployResult
  store : List (String × ServiceConfig)
  trace : List DockerAction
  building : Bool
deriving DecidableEq

/-- deployService (services.js lines 31-50): fetch the repository-declared
configuration (outcome supplied as `fetchResult`), merge it over the caller's
descriptor, build the ServiceConfiguration, and return its id; a failure of
the fetch (or of the merge/configuration step) is caught and rethrown as
`'Service creation failed: ' + error.message`. The store write and the
rebuild run in a `setTimeout` callback after the id has already been
returned; a rejection there is unhandled (only logged by the runtime) and
never alters the settled value, which is fixed before the callback runs. -/
def deployService (cloudyDomain : String) (availableServiceTypes : List String)
    (defaultServiceType : String) (store : List (String × ServiceConfig))
    (service : ServiceInput) (fetchResult : Except String FetchedConfig)
    (candidates : List Nat) (steps : StepOutcomes) (buildingIn : Bool) : DeployOutcome :=
  match fetchResult with
  | .error e =>
    { result := .raised ("Service creation failed: " ++ e)
      store := store, trace := [], building := buildingIn }
  | .ok configuration =>
    let merged := mergeConfiguration service configuration
    match createServiceConfiguration cloudyDomain availableServiceTypes defaultServiceType
        (store.map (fun p => p.2)) merged candidates with
    | none => { result := .diverged, store := store, trace := [], building := buildingIn }
    | some (cfg, _) =>
      let store1 := setKey store cfg.id cfg
      let r := rebuildService steps cfg buildingIn
      { result := .returnedId cfg.id
        store := store1
        trace := DockerAction.storeService cfg.id :: r.trace
        building := r.building }

/-! ## Service keys (services.js lines 113-139) -/

/-- getServiceKey: `this.serviceKeys.get(sha256(repository))`; the
FileStorage `get` collapses a falsy stored value (the empty string) to the
null default, modelled as `none`. -/
def getServiceKey (serviceKeys : List (String × String)) (repository : String) : Option String :=
  match lookupKey serviceKeys (sha256Hex repository) with
  | some k => if k = "" then none else some k
  | none => none

/-- What createServiceKey settles to: a thrown error or the fresh key. -/
inductive KeyResult where
  | raised (message : String)
  | key (value : String)
deriving DecidableEq

/-- createServiceKey (services.js lines 118-139): reject a falsy repository,
then a repository the source host says does not exist, then an already
registered repository — all three before touching the store; otherwise store
`sha256(randomHex)` under `sha256(repository)`. The 256 random bytes rendered
as hex are supplied as `randomHex`. -/
def createServiceKey (serviceKeys : List (String × String)) (repositoryExists : Bool)
    (randomHex : String) (repository : String) : KeyResult × List (String × String) :=
  if repository = "" then (.raised "Invalid repository", serviceKeys)
  else if !repositoryExists then (.raised "Repository not found", serviceKeys)
  else if (getServiceKey serviceKeys repository).isSome then
    (.raised "Service already exists", serviceKeys)
  else
    let serviceKeyId := sha256Hex repository
    let serviceKey := sha256Hex randomHex
    (.key serviceKey, setKey serviceKeys serviceKeyId serviceKey)

/-! ## Small discriminators and concrete fixtures used in the statements -/

/-- Whether a JSON value is the null value. -/
def Json.isNull : Json → Bool
  | .null => true
  | _ => false

/-- Whether a step outcome is a success. -/
def StepResult.isOk : StepResult → Bool
  | .ok => true
  | .fail _ => false

/-- Whether createServiceKey threw. -/
def KeyResult.isRaised : KeyResult → Bool
  | .raised _ => true
  | .key _ => false

/-- The sixteen lowercase hexadecimal digits. -/
def hexAlphabet : List Char := "0123456789abcdef".data

/-- A caller descriptor with no declared type, domain or websocket. -/
def plainInput : ServiceInput :=
  { repository := "git://x/y", head := "master", type := none, domain := none,
    webSocket := none, env := [], url := none, cloneUrl := none }

/-- A caller descriptor declaring a websocket channel. -/
def wsInput : ServiceInput :=
  { plainInput with webSocket := some ⟨"/ws"⟩ }

/-- A caller descriptor whose explicit domain equals the derived subdomain. -/
def dupDomainInput : ServiceInput :=
  { plainInput with
    domain := some ((getServiceId "git://x/y" "master").take 7 ++ "." ++ "local") }

/-- A stored service record used in concrete runs. -/
def svcA : ServiceConfig :=
  { id := "a1", type := "node", url := none, cloneUrl := none, branch := "master",
    repository := "git://x/y", webSocket := none, domains := ["a1.local"],
    ports := [3500], env := [], online := false, imageId := none }

/-- All five pipeline steps succeed. -/
def stepsOk : StepOutcomes := ⟨.ok, .ok, .ok, .ok, .ok⟩

/-- The image build step throws. -/
def stepsBuildFail : StepOutcomes :=
  { stepsOk with createImage := .fail "Failed to create image for git://x/y" }

/-- A fetched repository configuration declaring nothing. -/
def emptyFetch : FetchedConfig := ⟨none, none, none, none, none, none, none, none⟩

/-- A key store in which "git://x/y" is already registered. -/
def serviceKeys1 : List (String × String) := [(sha256Hex "git://x/y", "k1")]

/-- The configuration createServiceConfiguration produces from `plainInput`
with an empty store, base domain 'local', image set `["node"]` and the
candidate stream `[4000]`. -/
def demoConfig : ServiceConfig :=
  { id := getServiceId "git://x/y" "master", type := "node", url := none, cloneUrl := none,
    branch := "master", repository := "git://x/y", webSocket := none,
    domains := [(getServiceId "git://x/y" "master").take 7 ++ "." ++ "local"],
    ports := [4000], env := [("PORT", EnvValue.num 4000)], online := false, imageId := none }

end Cloudy

/-! # Theorems -/

namespace Cloudy

/-! ## Association-list lemmas shared by the storage and key claims -/

theorem lookupKey_cons (p : String × α) (rest : List (String × α)) (k : String) :
    lookupKey (p :: rest) k = if p.1 == k then some p.2 else lookupKey rest k := by
  simp only [lookupKey, List.find?_cons]
  cases hb : (p.1 == k) <;> simp [hb]

theorem lookupKey_setKey_self (data : List (String × α)) (k : String) (v : α) :
    lookupKey (setKey data k v) k = some v := by
  induction data with
  | nil => simp [setKey, lookupKey_cons]
  | cons p rest ih =>
    cases hb : (p.1 == k) with
    | true => simp [setKey, hb, lookupKey_cons]
    | false => simp [setKey, hb, lookupKey_cons, ih]

theorem lookupKey_setKey_ne (data : List (String × α)) (k k' : String) (v : α)
    (hne : k' ≠ k) : lookupKey (setKey data k v) k' = lookupKey data k' := by
  have hkk : (k == k') = false := beq_eq_false_iff_ne.mpr (Ne.symm hne)
  induction data with
  | nil => simp [setKey, lookupKey_cons, hkk, lookupKey]
  | cons p rest ih =>
    cases hb : (p.1 == k) with
    | true =>
      have hpk : p.1 = k := by simpa using hb
      simp [setKey, hb, lookupKey_cons, hkk, hpk]
    | false => simp [setKey, hb, lookupKey_cons, ih]

theorem lookupKey_delKey_self (data : List (String × α)) (k : String) :
    lookupKey (delKey data k) k = none := by
  induction data with
  | nil => rfl
  | cons p rest ih =>
    cases hb : (p.1 == k) with
    | true => simpa [delKey, List.filter_cons, bne, hb] using ih
    | false => simpa [delKey, List.filter_cons, bne, hb, lookupKey_cons] using ih

/-! ## Regressions pinning the SHA-256 embedding to the reference vectors -/

set_option maxRecDepth 400000 in
/-- The embedded SHA-256 reproduces the FIPS 180-4 vector for "abc". -/
theorem sha256Hex_vector_abc :
    sha256Hex "abc" = "ba7816bf8f01cfea414140de5dae2223b00361a396177a9cb410ff61f20015ad" := by
  decide

set_option maxRecDepth 400000 in
/-- The embedded SHA-256 reproduces the digest of the empty message. -/
theorem sha256Hex_vector_empty :
    sha256Hex "" = "e3b0c44298fc1c149afbf4c8996fb92427ae41e4649b934ca495991b7852b855" := by
  decide

/-! ## Claim C1 -/

theorem hexChar_mem_alphabet (n : Nat) (hn : n < 16) : hexChar n ∈ hexAlphabet := by
  interval_cases n <;> decide

theorem wordHex_subset (w : Nat) : ∀ c ∈ wordHex w, c ∈ hexAlphabet := by
  intro c hc
  simp only [wordHex, List.mem_cons, List.not_mem_nil, or_false] at hc
  rcases hc with rfl | rfl | rfl | rfl | rfl | rfl | rfl | rfl <;>
    exact hexChar_mem_alphabet _ (Nat.mod_lt _ (by omega))

/-- Claim C1 counterexample: the distinct pairs ("a","bc") and ("ab","c")
receive the same service identity, because getServiceId hashes the plain
concatenation of repository and head. -/
theorem getServiceId_pair_collision :
    getServiceId "a" "bc" = getServiceId "ab" "c" ∧
    (("a" : String) == "ab") = false := by
  exact ⟨rfl, by decide⟩

/-- Claim C1 (amended): getServiceId is the lowercase-hex SHA-256 of the
UTF-8 concatenation of repository and head (64 lowercase hex characters),
and is pure and deterministic; but distinct pairs are distinguished only
through that concatenation — pairs with equal concatenations receive equal
identities. -/
theorem getServiceId_spec (r h r' h' : String) :
    getServiceId r h = sha256Hex (r ++ h) ∧
    (r = r' ∧ h = h' → getServiceId r h = getServiceId r' h') ∧
    (r ++ h = r' ++ h' → getServiceId r h = getServiceId r' h') ∧
    (getServiceId r h).length = 64 ∧
    (∀ c ∈ (getServiceId r h).data, c ∈ hexAlphabet) := by
  refine ⟨rfl, ?_, ?_, ?_, ?_⟩
  · rintro ⟨rfl, rfl⟩; rfl
  · intro e; unfold getServiceId; rw [e]
  · simp [getServiceId, sha256Hex, wordHex, String.length]
  · intro c hc
    simp only [getServiceId, sha256Hex, String.data, List.mem_append] at hc
    rcases hc with ((((((hc | hc) | hc) | hc) | hc) | hc) | hc) | hc <;>
      exact wordHex_subset _ _ hc

set_option maxRecDepth 400000 in
/-- Witness for getServiceId_spec at ("a","bc") against ("ab","c"). -/
theorem getServiceId_spec_witness :
    getServiceId "a" "bc" = sha256Hex ("a" ++ "bc") ∧
    getServiceId "a" "bc" = getServiceId "a" "bc" ∧
    getServiceId "a" "bc" = getServiceId "ab" "c" ∧
    (getServiceId "a" "bc").length = 64 ∧
    'b' ∈ hexAlphabet := by
  refine ⟨(getServiceId_spec "a" "bc" "ab" "c").1,
          (getServiceId_spec "a" "bc" "a" "bc").2.1 ⟨rfl, rfl⟩,
          (getServiceId_spec "a" "bc" "ab" "c").2.2.1 (by decide),
          (getServiceId_spec "a" "bc" "ab" "c").2.2.2.1,
          (getServiceId_spec "a" "bc" "ab" "c").2.2.2.2 'b' (by decide)⟩

/-! ## Claim C2 -/

/-- Claim C2: with no services stored, a websocket-declaring deploy whose two
random draws both produce 5000 assigns `ports = [5000, 5000]` — the
websocket draw checks only the ports of already-stored services, never the
http port just allocated for the same service, so the union of assigned
ports contains a duplicate. -/
theorem createServiceConfiguration_port_collision :
    ((createServiceConfiguration "local" ["node"] "node" [] wsInput [5000, 5000]).map
        (fun x => x.1.ports)) = some [5000, 5000] ∧
    ([5000, 5000] : List Nat).count 5000 = 2 := by
  exact ⟨rfl, by decide⟩

/-! ## Claim C3 -/

/-- Claim C3: a first getAllServices call with `"a1"` running mutates the
stored record's `online` to true; a second call with an empty running list
still reports the service online — the flag from the earlier call is
returned stale, never recomputed to false. -/
theorem getAllServices_stale_online :
    svcA.online = false ∧
    ((getAllServices [("a1", svcA)] ["a1"]).2.map (fun s => (s.id, s.online)))
      = [("a1", true)] ∧
    ((getAllServices (getAllServices [("a1", svcA)] ["a1"]).1 []).2.map
        (fun s => (s.id, s.online)))
      = [("a1", true)] := by
  refine ⟨rfl, by decide, by decide⟩

/-! ## Claim C4 -/

/-- Claim C4: deployService rejects with 'Service creation failed: ' wrapping
the cause exactly when the configuration fetch fails (leaving the store
untouched and attempting no pipeline step); when the fetch succeeds and the
merge/port allocation terminates it resolves with the new configuration's
identity; and the settled value is independent of the deferred rebuild's
step outcomes and of the build flag. -/
theorem deployService_result_spec (cd : String) (av : List String) (df : String)
    (store : List (String × ServiceConfig)) (service : ServiceInput)
    (fetchResult : Except String FetchedConfig) (candidates : List Nat)
    (steps steps' : StepOutcomes) (b b' : Bool) :
    (∀ e, fetchResult = .error e →
      (deployService cd av df store service fetchResult candidates steps b).result
          = .raised ("Service creation failed: " ++ e) ∧
      (deployService cd av df store service fetchResult candidates steps b).store = store ∧
      (deployService cd av df store service fetchResult candidates steps b).trace = []) ∧
    (∀ configuration, fetchResult = .ok configuration →
      ∀ cfg rest, createServiceConfiguration cd av df (store.map (fun p => p.2))
          (mergeConfiguration service configuration) candidates = some (cfg, rest) →
      (deployService cd av df store service fetchResult candidates steps b).result
          = .returnedId cfg.id) ∧
    ((deployService cd av df store service fetchResult candidates steps b).result
      = (deployService cd av df store service fetchResult candidates steps' b').result) := by
  refine ⟨?_, ?_, ?_⟩
  · rintro e rfl
    exact ⟨rfl, rfl, rfl⟩
  · rintro configuration rfl cfg rest hc
    simp [deployService, hc]
  · cases fetchResult with
    | error e => rfl
    | ok configuration =>
      cases hc : createServiceConfiguration cd av df (store.map (fun p => p.2))
          (mergeConfiguration service configuration) candidates with
      | none => simp [deployService, hc]
      | some pr => simp [deployService, hc]

set_option maxRecDepth 400000 in
/-- Witness for deployService_result_spec: a failing fetch rejects with the
wrapped message, and a successful fetch resolves with the identity even
though the deferred image build fails. -/
theorem deployService_result_spec_witness :
    (deployService "local" ["node"] "node" [] plainInput (.error "boom") [4000]
        stepsOk true).result = .raised ("Service creation failed: " ++ "boom") ∧
    (deployService "local" ["node"] "node" [] plainInput (.ok emptyFetch) [4000]
        stepsBuildFail false).result = .returnedId demoConfig.id := by
  refine ⟨((deployService_result_spec "local" ["node"] "node" [] plainInput (.error "boom")
      [4000] stepsOk stepsOk true true).1 "boom" rfl).1, ?_⟩
  exact (deployService_result_spec "local" ["node"] "node" [] plainInput (.ok emptyFetch)
      [4000] stepsBuildFail stepsBuildFail false false).2.1 emptyFetch rfl demoConfig []
      (by rfl)

/-! ## Claim C5 -/

/-- Claim C5 counterexample: storing the JSON value `false` under "k" and
reading it back returns the null default, not a value deep-equal to the one
stored — FileStorage.get collapses falsy stored values. -/
theorem fileStorage_falsy_roundtrip :
    (FileStorage.get (FileStorage.set ⟨[]⟩ "k" (Json.bool false)) "k" Json.null).isNull
        = true ∧
    (Json.bool false).isNull = false := by
  exact ⟨rfl, rfl⟩

/-- Claim C5 (amended): the set/get round trip returns the stored value for
every truthy JSON value (falsy values are collapsed to the default by the
`|| defaultValue` read), and delete followed by has is always false. -/
theorem fileStorage_roundtrip (st : FileStorage) (k : String) (v : Json)
    (hv : v.truthy = true) :
    FileStorage.get (FileStorage.set st k v) k Json.null = v ∧
    FileStorage.hasKey (FileStorage.delete st k) k = false := by
  constructor
  · simp [FileStorage.get, FileStorage.set, lookupKey_setKey_self, hv]
  · simp [FileStorage.hasKey, FileStorage.delete, lookupKey_delKey_self]

/-- Witness for fileStorage_roundtrip with the truthy value "x". -/
theorem fileStorage_roundtrip_witness :
    FileStorage.get (FileStorage.set ⟨[]⟩ "k" (Json.str "x")) "k" Json.null = Json.str "x" ∧
    FileStorage.hasKey (FileStorage.delete ⟨[]⟩ "k") "k" = false :=
  fileStorage_roundtrip ⟨[]⟩ "k" (Json.str "x") rfl

/-! ## Claim C6 -/

theorem append_dot_ne_empty (a b : String) : a ++ "." ++ b ≠ "" := by
  intro he
  have h2 : (a ++ "." ++ b).data = ([] : List Char) := by rw [he]
  rw [String.data_append, String.data_append] at h2
  rcases List.append_eq_nil.mp h2 with ⟨h3, _⟩
  rcases List.append_eq_nil.mp h3 with ⟨_, h6⟩
  exact absurd h6 (by decide)

set_option maxRecDepth 400000 in
/-- Claim C6 counterexample: when the explicit domain equals the derived
subdomain, that hostname appears twice in `domains` — `filter(Boolean)`
removes falsy entries but performs no deduplication. -/
theorem createServiceConfiguration_domains_duplicate :
    ((createServiceConfiguration "local" ["node"] "node" [] dupDomainInput [4000]).map
        (fun x => x.1.domains.count
          ((getServiceId "git://x/y" "master").take 7 ++ "." ++ "local")))
      = some 2 := by
  decide

/-- Claim C6 (amended): `domains` is the truthiness-filtered list of the
explicit domain followed by the derived subdomain (first 7 hex characters of
the identity joined with the base domain), with no deduplication: without an
explicit domain it is exactly the derived subdomain, and a truthy explicit
domain distinct from the derived subdomain gives a duplicate-free pair — but
only the counterexample's coincidence case duplicates. -/
theorem createServiceConfiguration_domains_spec (cd : String) (av : List String)
    (df : String) (services : List ServiceConfig) (service : ServiceInput)
    (cands : List Nat) (cfg : ServiceConfig) (rest : List Nat)
    (h : createServiceConfiguration cd av df services service cands = some (cfg, rest)) :
    cfg.domains
        = [service.domain,
           some ((getServiceId service.repository service.head).take 7 ++ "." ++ cd)].filterMap
            optTruthy ∧
    (service.domain = none →
      cfg.domains = [(getServiceId service.repository service.head).take 7 ++ "." ++ cd]) ∧
    (∀ d, service.domain = some d → d ≠ "" →
      d ≠ (getServiceId service.repository service.head).take 7 ++ "." ++ cd →
      cfg.domains
          = [d, (getServiceId service.repository service.head).take 7 ++ "." ++ cd] ∧
      cfg.domains.Nodup) := by
  have hdom : cfg.domains
      = [service.domain,
         some ((getServiceId service.repository service.head).take 7 ++ "." ++ cd)].filterMap
          optTruthy := by
    revert h
    simp only [createServiceConfiguration]
    split
    · intro h; cases h
    · split
      · split
        · intro h; cases h
        · intro h
          cases h
          rfl
      · intro h
        cases h
        rfl
  have hderived := append_dot_ne_empty ((getServiceId service.repository service.head).take 7) cd
  refine ⟨hdom, ?_, ?_⟩
  · intro hnone
    simp [hdom, hnone, optTruthy, hderived]
  · intro d hd hne hne2
    constructor
    · simp [hdom, hd, optTruthy, hderived, hne]
    · simp [hdom, hd, optTruthy, hderived, hne, List.nodup_cons, hne2]

set_option maxRecDepth 400000 in
/-- Witness for createServiceConfiguration_domains_spec on plainInput: no
explicit domain, so domains is exactly the derived subdomain. -/
theorem createServiceConfiguration_domains_spec_witness :
    demoConfig.domains = [(getServiceId "git://x/y" "master").take 7 ++ "." ++ "local"] :=
  (createServiceConfiguration_domains_spec "local" ["node"] "node" [] plainInput [4000]
      demoConfig [] (by rfl)).2.1 rfl

/-! ## Claim C7 -/

/-- Claim C7: createServiceKey throws without touching the key store both
when the repository is already registered and when the source host says the
repository does not exist; a successful call stores exactly one new key —
the fresh key under sha256(repository) — and leaves every other key
unchanged. -/
theorem createServiceKey_spec (serviceKeys : List (String × String))
    (repositoryExists : Bool) (randomHex : String) (repository : String) :
    (∀ k, getServiceKey serviceKeys repository = some k →
        (createServiceKey serviceKeys repositoryExists randomHex repository).1.isRaised
            = true ∧
        (createServiceKey serviceKeys repositoryExists randomHex repository).2
            = serviceKeys) ∧
    (repositoryExists = false →
        (createServiceKey serviceKeys repositoryExists randomHex repository).1.isRaised
            = true ∧
        (createServiceKey serviceKeys repositoryExists randomHex repository).2
            = serviceKeys) ∧
    (repository ≠ "" → repositoryExists = true →
        getServiceKey serviceKeys repository = none →
        (createServiceKey serviceKeys repositoryExists randomHex repository).1
            = .key (sha256Hex randomHex) ∧
        lookupKey (createServiceKey serviceKeys repositoryExists randomHex repository).2
            (sha256Hex repository) = some (sha256Hex randomHex) ∧
        (∀ k', k' ≠ sha256Hex repository →
          lookupKey (createServiceKey serviceKeys repositoryExists randomHex repository).2 k'
              = lookupKey serviceKeys k')) := by
  refine ⟨?_, ?_, ?_⟩
  · intro k hk
    by_cases hr : repository = ""
    · simp [createServiceKey, hr, KeyResult.isRaised]
    · cases repositoryExists with
      | false => simp [createServiceKey, hr, KeyResult.isRaised]
      | true => simp [createServiceKey, hr, hk, KeyResult.isRaised]
  · rintro rfl
    by_cases hr : repository = "" <;> simp [createServiceKey, hr, KeyResult.isRaised]
  · intro hr he hk
    subst he
    refine ⟨by simp [createServiceKey, hr, hk], ?_, ?_⟩
    · simp [createServiceKey, hr, hk, lookupKey_setKey_self]
    · intro k' hk'
      simp [createServiceKey, hr, hk, lookupKey_setKey_ne _ _ _ _ hk']

set_option maxRecDepth 400000 in
/-- Witness for createServiceKey_spec: a registered repository and a
nonexistent repository both throw leaving the store unchanged, and a fresh
registration stores the hashed random material under the hashed repository
without touching another key. -/
theorem createServiceKey_spec_witness :
    ((createServiceKey serviceKeys1 true "rnd" "git://x/y").1.isRaised = true ∧
      (createServiceKey serviceKeys1 true "rnd" "git://x/y").2 = serviceKeys1) ∧
    ((createServiceKey [] false "rnd" "git://x/y").1.isRaised = true ∧
      (createServiceKey [] false "rnd" "git://x/y").2 = []) ∧
    ((createServiceKey [] true "rnd" "git://x/y").1 = .key (sha256Hex "rnd") ∧
      lookupKey (createServiceKey [] true "rnd" "git://x/y").2 (sha256Hex "git://x/y")
          = some (sha256Hex "rnd") ∧
      lookupKey (createServiceKey [] true "rnd" "git://x/y").2 "other"
          = lookupKey ([] : List (String × String)) "other") := by
  refine ⟨(createServiceKey_spec serviceKeys1 true "rnd" "git://x/y").1 "k1" (by decide),
          (createServiceKey_spec [] false "rnd" "git://x/y").2.1 rfl,
          ?_, ?_, ?_⟩
  · exact ((createServiceKey_spec [] true "rnd" "git://x/y").2.2 (by decide) rfl rfl).1
  · exact ((createServiceKey_spec [] true "rnd" "git://x/y").2.2 (by decide) rfl rfl).2.1
  · exact ((createServiceKey_spec [] true "rnd" "git://x/y").2.2 (by decide) rfl rfl).2.2
      "other" (by decide)

/-! ## Claim C8 -/

/-- Claim C8: when no configuration is stored under the derived identity,
rebuildRepository throws the not-found error and attempts no build, run or
proxy step. -/
theorem rebuildRepository_unknown (store : List (String × ServiceConfig))
    (steps : StepOutcomes) (b : Bool) (repository head : String)
    (h : lookupKey store (getServiceId repository head) = none) :
    rebuildRepository store steps b repository head
      = { result := .fail ("Service configuration for " ++ repository ++ ":" ++ head
            ++ " not found!")
          trace := []
          building := b } := by
  simp [rebuildRepository, h]

/-- Witness for rebuildRepository_unknown: an empty store and the head
"nope" from the spec scenario. -/
theorem rebuildRepository_unknown_witness :
    rebuildRepository [] stepsOk true "git://x/y" "nope"
      = { result := .fail ("Service configuration for " ++ "git://x/y" ++ ":" ++ "nope"
            ++ " not found!")
          trace := []
          building := true } :=
  rebuildRepository_unknown [] stepsOk true "git://x/y" "nope" rfl

/-! ## Claim C9 -/

/-- Claim C9: the effective type is the declared type exactly when it lies in
the supported runtime-image set (whose members, being directory names, are
nonempty), and the configured default otherwise — including when no type is
declared. -/
theorem getServiceType_spec (availableServiceTypes : List String)
    (defaultServiceType : String) (service : ServiceInput)
    (hav : "" ∉ availableServiceTypes) :
    (∀ t, service.type = some t → t ∈ availableServiceTypes →
        getServiceType availableServiceTypes defaultServiceType service = t) ∧
    (∀ t, service.type = some t → t ∉ availableServiceTypes →
        getServiceType availableServiceTypes defaultServiceType service
          = defaultServiceType) ∧
    (service.type = none →
        getServiceType availableServiceTypes defaultServiceType service
          = defaultServiceType) := by
  refine ⟨?_, ?_, ?_⟩
  · intro t ht hmem
    have hne : t ≠ "" := fun he => hav (he ▸ hmem)
    have hc : availableServiceTypes.contains t = true := by
      simp [List.contains, List.elem_iff, hmem]
    simp [getServiceType, ht, hne, hc, hmem]
  · intro t ht hmem
    have hc : availableServiceTypes.contains t = false := by
      simp [List.contains, List.elem_iff, hmem]
    simp [getServiceType, ht, hc, hmem]
  · intro ht
    simp [getServiceType, ht]

/-- Witness for getServiceType_spec over the image set ["node"]: a supported
declared type is kept, an unsupported one and an absent one fall back to the
default 'node'. -/
theorem getServiceType_spec_witness :
    getServiceType ["node"] dockerDefaultServiceType
        { plainInput with type := some "node" } = "node" ∧
    getServiceType ["node"] dockerDefaultServiceType
        { plainInput with type := some "python" } = dockerDefaultServiceType ∧
    getServiceType ["node"] dockerDefaultServiceType plainInput
        = dockerDefaultServiceType := by
  refine ⟨(getServiceType_spec ["node"] dockerDefaultServiceType _ (by decide)).1
            "node" rfl (by decide),
          (getServiceType_spec ["node"] dockerDefaultServiceType _ (by decide)).2.1
            "python" rfl (by decide),
          (getServiceType_spec ["node"] dockerDefaultServiceType _ (by decide)).2.2 rfl⟩

/-! ## Claim C10 -/

/-- Claim C10: rebuildService leaves the build-in-progress flag true exactly
when the whole pipeline succeeded (it is set at entry and cleared only by a
step's failure), its behaviour is independent of the incoming flag value,
and neither rebuildRepository nor deployService consults the flag to refuse
an overlapping rebuild — their results and traces are flag-independent. -/
theorem rebuildService_flag_spec (steps : StepOutcomes) (cfg : ServiceConfig)
    (store : List (String × ServiceConfig)) (repository head : String)
    (cd : String) (av : List String) (df : String)
    (store2 : List (String × ServiceConfig)) (service : ServiceInput)
    (fetchResult : Except String FetchedConfig) (candidates : List Nat) (b b' : Bool) :
    (rebuildService steps cfg b).building = (rebuildService steps cfg b).result.isOk ∧
    rebuildService steps cfg b = rebuildService steps cfg b' ∧
    (rebuildRepository store steps b repository head).result
        = (rebuildRepository store steps b' repository head).result ∧
    (rebuildRepository store steps b repository head).trace
        = (rebuildRepository store steps b' repository head).trace ∧
    (deployService cd av df store2 service fetchResult candidates steps b).result
        = (deployService cd av df store2 service fetchResult candidates steps b').result := by
  refine ⟨?_, rfl, ?_, ?_, ?_⟩
  · cases h2 : (runSteps (stepList cfg.id steps)).2 <;>
      simp [rebuildService, h2, StepResult.isOk]
  · cases hl : lookupKey store (getServiceId repository head) with
    | none => simp [rebuildRepository, hl]
    | some c => simp only [rebuildRepository, hl]; rfl
  · cases hl : lookupKey store (getServiceId repository head) with
    | none => simp [rebuildRepository, hl]
    | some c => simp only [rebuildRepository, hl]; rfl
  · cases fetchResult with
    | error e => rfl
    | ok configuration =>
      cases hc : createServiceConfiguration cd av df (store2.map (fun p => p.2))
          (mergeConfiguration service configuration) candidates with
      | none => simp [deployService, hc]
      | some pr => simp [deployService, hc]

end Cloudy
